import Mathlib

/-!
Shallow embedding of the two-factor-authentication and trusted-device core
of the NextApp repository, together with proofs about the embedded routes.

Embedded source files:
* `src/app/api/auth/login-attempt/route.ts` — in-memory login throttle.
* `src/app/api/dashboard/2fa/verify/route.ts` — 2FA enrollment verify and
  disable handlers.
* `src/app/api/dashboard/trusted-devices/refresh/route.ts` — `touch`.
* `src/app/api/dashboard/settings/route.ts` — settings GET/POST.
* the profile route (with the trusted-device cookie validation) and the
  login-time 2FA challenge route (`/api/auth/2fa/verify-login`).

Modelling conventions:
* The database is a pure value (`DB`): a list of profile rows and a list
  of `trusted_devices` rows.  Handlers are total functions from database
  state and request data to a response and a new database state; the
  embedding follows the error-free path of each handler (infrastructure
  failures such as a missing table are not modelled unless a claim needs
  them).
* sha256 is modelled as an explicit function parameter `hash`; theorems
  that depend on hashes differing take that as a hypothesis.
* `authenticator.check` from otplib may throw, so it is modelled as a
  function returning `Except String Bool`; the routes' try/catch wrapper
  is `safeCheck`.
* Randomness (the fresh raw device token) and the clock are passed in as
  arguments.
-/

namespace NextApp

/-- The stored TOTP entry inside `profiles.preferences.totp`
(`{ enabled, secret, createdAt }` as written by the enrollment verify
route). -/
structure Totp where
  enabled : Bool
  secret : String
  createdAt : Nat
deriving DecidableEq, Repr

/-- The `profiles.preferences` JSONB value: the `totp` key plus the other
keys, which the 2FA routes preserve verbatim when they merge
(`{ ...prefs, totp }`, `delete merged.totp`). -/
structure Preferences where
  totp : Option Totp
  otherKeys : List (String × String)
deriving DecidableEq, Repr

/-- A row of the `profiles` table (the columns the embedded routes read). -/
structure Profile where
  id : String
  full_name : Option String
  username : Option String
  avatar_path : Option String
  preferences : Option Preferences
deriving DecidableEq, Repr

/-- A row of the `trusted_devices` table. -/
structure TrustedDevice where
  id : Nat
  user_id : String
  token_hash : String
  user_agent : String
  created_at : Nat
  last_seen : Nat
deriving DecidableEq, Repr

/-- The persistent store visible to the embedded routes. -/
structure DB where
  profiles : List Profile
  trusted_devices : List TrustedDevice
deriving DecidableEq, Repr

/-- Empty preferences object (`prefs = existing?.preferences || {}`). -/
def emptyPrefs : Preferences := ⟨none, []⟩

/-- A `Set-Cookie` on the response: value and max age in seconds. -/
structure Cookie where
  value : String
  maxAge : Nat
deriving DecidableEq, Repr

/-- The try/catch wrapper both verify routes put around
`authenticator.check`: an exception from the underlying check resolves to
`false` (`catch (e) { ...; ok = false }`). -/
def safeCheck (check : String → String → Except String Bool) (code secret : String) : Bool :=
  match check code secret with
  | .ok b => b
  | .error _ => false

/-! ## Device trust: issuing and checking

`issueTrusted` embeds the trusted-device creation common to the enrollment
verify route and the login-time challenge route: generate a random raw
token, persist only its sha256 hash with the user id, user agent (clipped
to 1000 chars) and timestamps.

`trustedDeviceCheck` embeds the cookie validation block of the profile
route GET (src/unnamed/part_013, lines 108–136): hash the presented
cookie value, look for a `trusted_devices` row with matching
`(user_id, token_hash)`; on a match the device is trusted; on no match
the code falls back to the legacy prefix check
`raw.startsWith(userId + ":")`. -/

/-- `s.startsWith(p)` on the underlying character sequences. -/
def strStartsWith (s p : String) : Bool := p.data.isPrefixOf s.data

/-- Persist a new trusted-device row for `userId`; only `hash rawToken` is
stored, never the raw token. -/
def issueTrusted (hash : String → String) (db : DB) (userId rawToken ua : String)
    (now : Nat) : DB :=
  { db with trusted_devices :=
      db.trusted_devices ++
        [⟨db.trusted_devices.length, userId, hash rawToken, ua.take 1000, now, now⟩] }

/-- The profile route's trusted-device cookie validation: DB-backed hash
lookup first, legacy prefix fallback when there is no match. -/
def trustedDeviceCheck (hash : String → String) (db : DB) (userId : String)
    (rawCookie : Option String) : Bool :=
  match rawCookie with
  | none => false
  | some raw =>
    match db.trusted_devices.find?
        (fun d => d.user_id == userId && d.token_hash == hash raw) with
    | some _ => true
    | none => strStartsWith raw (userId ++ ":")

/-! ## Login throttle (src/app/api/auth/login-attempt/route.ts)

Two in-process fixed-window counters: per-email (15 min / 5 attempts) and
per-IP (60 min / 200 attempts).  Times are Unix milliseconds. -/

/-- A throttle counter entry (`{ count, windowStart }`). -/
structure Entry where
  count : Nat
  windowStart : Nat
deriving DecidableEq, Repr

/-- The in-memory counter maps (`Map<string, Entry>`). -/
def CounterMap : Type := String → Option Entry

/-- `map.set(key, value)`. -/
def mset (m : CounterMap) (k : String) (v : Entry) : CounterMap :=
  fun k' => if k' = k then some v else m k'

/-- The empty counter map. -/
def memptyMap : CounterMap := fun _ => none

def EMAIL_WINDOW_MS : Nat := 15 * 60 * 1000
def EMAIL_MAX : Nat := 5
def IP_WINDOW_MS : Nat := 60 * 60 * 1000
def IP_MAX : Nat := 200

/-- `incrMap`: start a fresh window (count 1) when the key is absent or when
`windowStart + windowMs <= now`; otherwise increment the current count.
Returns the resulting entry and the updated map. -/
def incrMap (m : CounterMap) (key : String) (windowMs now : Nat) : Entry × CounterMap :=
  match m key with
  | none => (⟨1, now⟩, mset m key ⟨1, now⟩)
  | some e =>
    if e.windowStart + windowMs ≤ now then
      (⟨1, now⟩, mset m key ⟨1, now⟩)
    else
      (⟨e.count + 1, e.windowStart⟩, mset m key ⟨e.count + 1, e.windowStart⟩)

/-- `getRemaining`: remaining attempts and `retryAfter` (seconds, ceiling of
the remaining window) for a key. -/
def getRemaining (m : CounterMap) (key : String) (mx windowMs now : Nat) : Nat × Nat :=
  match m key with
  | none => (mx, 0)
  | some e =>
    if windowMs ≤ now - e.windowStart then (mx, 0)
    else (mx - e.count, (windowMs - (now - e.windowStart) + 999) / 1000)

/-- The two module-level maps of the login-attempt route. -/
structure ThrottleState where
  emailAttempts : CounterMap
  ipAttempts : CounterMap

/-- Fresh process state: both maps empty. -/
def throttleInit : ThrottleState := ⟨memptyMap, memptyMap⟩

/-- Response of the login-attempt POST. -/
structure ThrottleResp where
  status : Nat
  ok : Bool
  retryAfter : Option Nat
  remainingIp : Option Nat
  remainingEmail : Option Nat
deriving DecidableEq, Repr

/-- The login-attempt POST handler: increment the IP counter first and deny
on its limit; then, when an email is present, increment the email counter
and deny on its limit; otherwise report ok with the remaining counts. -/
def loginAttemptPOST (st : ThrottleState) (email : Option String) (ip : String)
    (now : Nat) : ThrottleResp × ThrottleState :=
  let ipRes := incrMap st.ipAttempts ip IP_WINDOW_MS now
  if IP_MAX < ipRes.1.count then
    let retry := (getRemaining ipRes.2 ip IP_MAX IP_WINDOW_MS now).2
    (⟨429, false, some retry, none, none⟩, ⟨st.emailAttempts, ipRes.2⟩)
  else
    match email with
    | some em =>
      let emRes := incrMap st.emailAttempts em EMAIL_WINDOW_MS now
      if EMAIL_MAX < emRes.1.count then
        let retry := (getRemaining emRes.2 em EMAIL_MAX EMAIL_WINDOW_MS now).2
        (⟨429, false, some retry, none, none⟩, ⟨emRes.2, ipRes.2⟩)
      else
        (⟨200, true, none,
            some (getRemaining ipRes.2 ip IP_MAX IP_WINDOW_MS now).1,
            some (getRemaining emRes.2 em EMAIL_MAX EMAIL_WINDOW_MS now).1⟩,
          ⟨emRes.2, ipRes.2⟩)
    | none =>
      (⟨200, true, none,
          some (getRemaining ipRes.2 ip IP_MAX IP_WINDOW_MS now).1,
          some EMAIL_MAX⟩,
        ⟨st.emailAttempts, ipRes.2⟩)

/-! ## Route handlers

Authentication by `verifyUserFromRequest` (session cookie or bearer token
resolving to a user) is modelled by an `authUser : Option String` input:
the request passes the check exactly when `authUser = some userId`. -/

/-- `update({preferences}).eq('id', userId)`: set the preferences of every
profile row whose id matches. -/
def updateProfilePrefs (db : DB) (userId : String) (p : Preferences) : DB :=
  { db with profiles :=
      db.profiles.map (fun r => if r.id == userId then { r with preferences := some p } else r) }

/-- Response of the login-time 2FA challenge route
(`POST /api/auth/2fa/verify-login`, src/unnamed/part_007). -/
structure VerifyLoginResp where
  status : Nat
  success : Bool
  error : Option String
  cookie : Option Cookie
deriving DecidableEq, Repr

/-- The login-time 2FA challenge handler.  It reads `userId` and `token`
from the body, looks up the stored TOTP secret, verifies the code, and on
success persists a fresh trusted-device row and sets the trust cookie.
`sessionUser` and `authHeader` are the request's session cookie and
Authorization header: the handler never consults them. -/
def verifyLoginPOST (hash : String → String) (check : String → String → Except String Bool)
    (db : DB) (sessionUser authHeader : Option String)
    (userId? token? : Option String) (ua rawFresh : String) (now : Nat) :
    VerifyLoginResp × DB :=
  match userId? with
  | none => (⟨400, false, some "missing userId", none⟩, db)
  | some userId =>
    match token? with
    | none => (⟨400, false, some "missing token", none⟩, db)
    | some token =>
      let prefs := ((db.profiles.find? (fun r => r.id == userId)).bind
        (fun r => r.preferences)).getD emptyPrefs
      match prefs.totp with
      | none => (⟨400, false, some "totp not configured", none⟩, db)
      | some t =>
        if t.secret = "" then (⟨400, false, some "totp not configured", none⟩, db)
        else if safeCheck check token t.secret then
          (⟨200, true, none, some ⟨rawFresh, 60 * 60 * 24 * 365⟩⟩,
            issueTrusted hash db userId rawFresh ua now)
        else
          (⟨400, false, some "invalid token", none⟩, db)

/-- Response of the enrollment verify route
(`POST /api/dashboard/2fa/verify`).  `totpOut` is the `{enabled, createdAt}`
pair the route returns on success — the secret is deliberately absent. -/
structure VerifyResp where
  status : Nat
  success : Bool
  error : Option String
  totpOut : Option (Bool × Nat)
  cookie : Option Cookie
deriving DecidableEq, Repr

/-- The 2FA enrollment-completion handler: authenticate the caller, verify
the submitted code against the submitted secret, and only on success merge
`totp = {enabled: true, secret, createdAt}` into the stored preferences and
issue a trusted-device token (row + cookie). -/
def verify2faPOST (hash : String → String) (check : String → String → Except String Bool)
    (db : DB) (authUser : Option String)
    (userId? secret? token? : Option String) (ua rawFresh : String) (now : Nat) :
    VerifyResp × DB :=
  match userId? with
  | none => (⟨400, false, some "missing userId", none, none⟩, db)
  | some userId =>
    match secret? with
    | none => (⟨400, false, some "missing secret", none, none⟩, db)
    | some secret =>
      match token? with
      | none => (⟨400, false, some "missing token", none, none⟩, db)
      | some token =>
        if authUser ≠ some userId then
          (⟨401, false, some "unauthorized", none, none⟩, db)
        else if safeCheck check token secret then
          let prefs := ((db.profiles.find? (fun r => r.id == userId)).bind
            (fun r => r.preferences)).getD emptyPrefs
          let merged : Preferences := { prefs with totp := some ⟨true, secret, now⟩ }
          let db1 := updateProfilePrefs db userId merged
          (⟨200, true, none, some (true, now), some ⟨rawFresh, 60 * 60 * 24 * 365⟩⟩,
            issueTrusted hash db1 userId rawFresh ua now)
        else
          (⟨400, false, some "invalid token", none, none⟩, db)

/-- Response of the disable route (`POST /api/dashboard/2fa/disable`). -/
structure DisableResp where
  status : Nat
  success : Bool
  error : Option String
  cookie : Option Cookie
deriving DecidableEq, Repr

/-- The 2FA disable handler: authenticate the caller, remove the `totp`
entry from the stored preferences when present, delete every
`trusted_devices` row of the user, and expire the trust cookie
(`maxAge: 0`). -/
def disable2faPOST (db : DB) (authUser : Option String) (userId? : Option String) :
    DisableResp × DB :=
  match userId? with
  | none => (⟨400, false, some "missing userId", none⟩, db)
  | some userId =>
    if authUser ≠ some userId then
      (⟨401, false, some "unauthorized", none⟩, db)
    else
      let prefs := ((db.profiles.find? (fun r => r.id == userId)).bind
        (fun r => r.preferences)).getD emptyPrefs
      let db1 :=
        if prefs.totp.isSome then
          updateProfilePrefs db userId { prefs with totp := none }
        else db
      let db2 := { db1 with trusted_devices :=
        db1.trusted_devices.filter (fun d => !(d.user_id == userId)) }
      (⟨200, true, none, some ⟨"", 0⟩⟩, db2)

/-- Response of the trusted-devices refresh route
(`POST /api/dashboard/trusted-devices/refresh`). -/
structure RefreshResp where
  status : Nat
  updated : Bool
  reason : Option String
  userId : Option String
deriving DecidableEq, Repr

/-- The `touch` handler: read the `trusted_device` cookie, hash it, and
update `last_seen` on the matching row; with no cookie or no matching row
it reports `updated: false` and changes nothing. -/
def refreshPOST (hash : String → String) (db : DB) (rawCookie : Option String)
    (now : Nat) : RefreshResp × DB :=
  match rawCookie with
  | none => (⟨200, false, some "no cookie", none⟩, db)
  | some raw =>
    match db.trusted_devices.find? (fun d => d.token_hash == hash raw) with
    | none => (⟨200, false, some "no match", none⟩, db)
    | some d =>
      (⟨200, true, none, some d.user_id⟩,
        { db with trusted_devices := db.trusted_devices.map (fun r =>
            if r.token_hash == hash raw then { r with last_seen := now } else r) })

/-- Response of the settings GET route: `{ preferences: data?.preferences || null }`. -/
structure SettingsResp where
  status : Nat
  preferences : Option Preferences
  error : Option String
deriving DecidableEq, Repr

/-- The settings GET handler: after authentication it returns the user's
stored preferences object verbatim. -/
def settingsGET (db : DB) (userId? : Option String) (authUser : Option String) :
    SettingsResp :=
  match userId? with
  | none => ⟨400, none, some "missing userId"⟩
  | some userId =>
    if authUser ≠ some userId then ⟨401, none, some "unauthorized"⟩
    else
      ⟨200, (db.profiles.find? (fun r => r.id == userId)).bind (fun r => r.preferences), none⟩

/-- The `profile` object built by the profile route GET
(src/unnamed/part_013): `totp` is the stored `preferences.totp` object,
`trustedDevice` the cookie validation result. -/
structure ProfileOut where
  full_name : Option String
  username : Option String
  avatar_path : Option String
  totp : Option Totp
  trustedDevice : Bool
deriving DecidableEq, Repr

/-- Response of the profile route GET. -/
structure ProfileResp where
  status : Nat
  profile : Option ProfileOut
  error : Option String
deriving DecidableEq, Repr

/-- The profile GET handler (avatar URL generation elided): returns the
profile fields, the stored `totp` object, and the trusted-device check. -/
def profileGET (hash : String → String) (db : DB) (userId? : Option String)
    (authUser : Option String) (rawCookie : Option String) : ProfileResp :=
  match userId? with
  | none => ⟨400, none, some "missing userId"⟩
  | some userId =>
    if authUser ≠ some userId then ⟨401, none, some "unauthorized"⟩
    else
      let row := db.profiles.find? (fun r => r.id == userId)
      ⟨200,
        some ⟨row.bind (fun r => r.full_name), row.bind (fun r => r.username),
          row.bind (fun r => r.avatar_path),
          (row.bind (fun r => r.preferences)).bind (fun p => p.totp),
          trustedDeviceCheck hash db userId rawCookie⟩,
        none⟩

/-! ## Helper lemmas and demo databases -/

@[simp] theorem mset_same (m : CounterMap) (k : String) (v : Entry) :
    mset m k v k = some v := by
  simp [mset]

@[simp] theorem memptyMap_apply (k : String) : memptyMap k = none := rfl

/-- A user `"u"` whose preferences hold an enabled TOTP entry with
secret `"s3cret"`. -/
def demoDb : DB :=
  ⟨[⟨"u", some "nm", some "un", none, some ⟨some ⟨true, "s3cret", 0⟩, []⟩⟩], []⟩

/-- A user `"u"` enrolled with TOTP secret `"S"` and no profile fields. -/
def demoDb2 : DB :=
  ⟨[⟨"u", none, none, none, some ⟨some ⟨true, "S", 0⟩, []⟩⟩], []⟩

/-- Like `demoDb2`, with two trusted devices for `"u"` and one for `"v"`. -/
def demoDb3 : DB :=
  ⟨[⟨"u", none, none, none, some ⟨some ⟨true, "S", 0⟩, []⟩⟩],
    [⟨0, "u", "h0", "ua", 0, 0⟩, ⟨1, "u", "h1", "ua", 1, 1⟩, ⟨2, "v", "h2", "ua", 2, 2⟩]⟩

/-! ## C9 — fixed-window counter semantics -/

/-- C9: an `incrMap` call with `now - windowStart ≥ windowMs` (including
exactly at the boundary) resets the key's counter to count 1 with
`windowStart = now`; an absent key also starts at count 1; a call strictly
before the boundary increments the existing count and keeps the window
start. -/
theorem incrMap_fixed_window (m : CounterMap) (key : String) (windowMs now : Nat) :
    (m key = none →
      incrMap m key windowMs now = (⟨1, now⟩, mset m key ⟨1, now⟩)) ∧
    (∀ e, m key = some e → e.windowStart ≤ now → windowMs ≤ now - e.windowStart →
      incrMap m key windowMs now = (⟨1, now⟩, mset m key ⟨1, now⟩)) ∧
    (∀ e, m key = some e → now - e.windowStart < windowMs →
      incrMap m key windowMs now =
        (⟨e.count + 1, e.windowStart⟩, mset m key ⟨e.count + 1, e.windowStart⟩)) := by
  refine ⟨fun h => by simp [incrMap, h], fun e he h1 h2 => ?_, fun e he h2 => ?_⟩
  · have hcond : e.windowStart + windowMs ≤ now := by omega
    simp [incrMap, he, hcond]
  · have hcond : ¬ (e.windowStart + windowMs ≤ now) := by omega
    simp [incrMap, he, hcond]

/-- Witness for C9: at the exact window boundary (window 100 ms opened at
0, call at 100) the counter resets to 1. -/
theorem incrMap_fixed_window_witness :
    incrMap (mset memptyMap "k" ⟨3, 0⟩) "k" 100 100
      = (⟨1, 100⟩, mset (mset memptyMap "k" ⟨3, 0⟩) "k" ⟨1, 100⟩) :=
  (incrMap_fixed_window (mset memptyMap "k" ⟨3, 0⟩) "k" 100 100).2.1
    ⟨3, 0⟩ (by simp) (by decide) (by decide)

/-! ## C10 — `touch` with an unknown token -/

/-- C10: a refresh (`touch`) whose cookie hash matches no persisted row
reports `updated: false` and leaves the trusted-device set unchanged; it
creates nothing. -/
theorem touch_unknown_token_no_change (hash : String → String) (db : DB)
    (raw : String) (now : Nat)
    (hno : ∀ d ∈ db.trusted_devices, d.token_hash ≠ hash raw) :
    refreshPOST hash db (some raw) now = (⟨200, false, some "no match", none⟩, db) := by
  have hfind : db.trusted_devices.find? (fun d => d.token_hash == hash raw) = none := by
    rw [List.find?_eq_none]
    intro d hd
    simpa using hno d hd
  simp [refreshPOST, hfind]

/-- Witness for C10: a ledger holding one foreign row is untouched by an
unknown token. -/
theorem touch_unknown_token_no_change_witness :
    refreshPOST (fun s => s) ⟨[], [⟨0, "u", "h1", "ua", 0, 0⟩]⟩ (some "x") 5
      = (⟨200, false, some "no match", none⟩, ⟨[], [⟨0, "u", "h1", "ua", 0, 0⟩]⟩) :=
  touch_unknown_token_no_change (fun s => s) ⟨[], [⟨0, "u", "h1", "ua", 0, 0⟩]⟩ "x" 5
    (by decide)

/-! ## C1 — the trust check is not fail-closed: legacy prefix fallback -/

/-- C1 counterexample: with an empty ledger (so no record of user `"u"`
has `token_hash = sha256(raw)` for any hash function), presenting the
cookie value `"u:x"` still yields `trustedDevice = true` via the legacy
prefix fallback — the claim's fail-closed conclusion is false here. -/
theorem trust_check_fallback_counterexample :
    (∀ d ∈ (⟨[], []⟩ : DB).trusted_devices,
        d.user_id = "u" → d.token_hash ≠ (fun s : String => s) "u:x") ∧
    trustedDeviceCheck (fun s => s) ⟨[], []⟩ "u" (some "u:x") = true := by
  refine ⟨fun d hd => by simp at hd, by decide⟩

/-- C1 amended: when no persisted record of `userId` matches the hash of
the presented token **and** the token does not begin with `userId + ":"`,
the trust check reports the device as untrusted. -/
theorem trust_check_no_match_untrusted (hash : String → String) (db : DB)
    (userId raw : String)
    (hno : ∀ d ∈ db.trusted_devices, d.user_id = userId → d.token_hash ≠ hash raw)
    (hpre : strStartsWith raw (userId ++ ":") = false) :
    trustedDeviceCheck hash db userId (some raw) = false := by
  have hfind : db.trusted_devices.find?
      (fun d => d.user_id == userId && d.token_hash == hash raw) = none := by
    rw [List.find?_eq_none]
    intro d hd
    simp only [Bool.and_eq_true, beq_iff_eq, not_and]
    exact fun h1 h2 => hno d hd h1 h2
  simp [trustedDeviceCheck, hfind, hpre]

/-- Witness for the amended C1. -/
theorem trust_check_no_match_untrusted_witness :
    trustedDeviceCheck (fun s => s) ⟨[], [⟨0, "u", "h1", "ua", 0, 0⟩]⟩ "u" (some "zz")
      = false :=
  trust_check_no_match_untrusted (fun s => s) ⟨[], [⟨0, "u", "h1", "ua", 0, 0⟩]⟩ "u" "zz"
    (by decide) (by decide)

/-! ## C7 — issue / isTrusted round trip -/

/-- C7 counterexample: issue a token `"aabb"` for `"u1"` on a fresh
ledger; the mutated token `"u1:zz"` (≠ `"aabb"`) is still reported
trusted for `"u1"`, through the legacy prefix fallback — the claim's
"any mutation returns false" is false here. -/
theorem issue_isTrusted_mutation_counterexample :
    ("u1:zz" ≠ "aabb") ∧
    trustedDeviceCheck (fun s => s)
        (issueTrusted (fun s => s) ⟨[], []⟩ "u1" "aabb" "ua" 0) "u1" (some "u1:zz")
      = true := by
  exact ⟨by decide, by decide⟩

/-- C7 amended: after `issue` the same user and raw token are trusted;
starting from an empty ledger, a different user — or a mutated token with
a different hash — is reported untrusted **provided** the presented value
does not begin with the checked user's id followed by `":"` (the legacy
prefix fallback accepts such values). -/
theorem issue_isTrusted_round_trip (hash : String → String) (db : DB)
    (u raw ua : String) (now : Nat) :
    (trustedDeviceCheck hash (issueTrusted hash db u raw ua now) u (some raw) = true) ∧
    (db.trusted_devices = [] → ∀ u', u' ≠ u → strStartsWith raw (u' ++ ":") = false →
      trustedDeviceCheck hash (issueTrusted hash db u raw ua now) u' (some raw) = false) ∧
    (db.trusted_devices = [] → ∀ raw', hash raw' ≠ hash raw →
      strStartsWith raw' (u ++ ":") = false →
      trustedDeviceCheck hash (issueTrusted hash db u raw ua now) u (some raw') = false) := by
  refine ⟨?_, ?_, ?_⟩
  · have hmem : (⟨db.trusted_devices.length, u, hash raw, ua.take 1000, now, now⟩ :
        TrustedDevice) ∈ (issueTrusted hash db u raw ua now).trusted_devices := by
      simp [issueTrusted]
    have hsome : ((issueTrusted hash db u raw ua now).trusted_devices.find?
        (fun d => d.user_id == u && d.token_hash == hash raw)).isSome := by
      rw [List.find?_isSome]
      exact ⟨_, hmem, by simp⟩
    rcases Option.isSome_iff_exists.mp hsome with ⟨d, hd⟩
    simp [trustedDeviceCheck, hd]
  · intro hdev u' hne hpre
    have hfind : ((issueTrusted hash db u raw ua now).trusted_devices.find?
        (fun d => d.user_id == u' && d.token_hash == hash raw)) = none := by
      rw [List.find?_eq_none]
      intro d hd
      simp [issueTrusted, hdev] at hd
      subst hd
      simp [Ne.symm hne]
    simp [trustedDeviceCheck, hfind, hpre]
  · intro hdev raw' hne hpre
    have hfind : ((issueTrusted hash db u raw ua now).trusted_devices.find?
        (fun d => d.user_id == u && d.token_hash == hash raw')) = none := by
      rw [List.find?_eq_none]
      intro d hd
      simp [issueTrusted, hdev] at hd
      subst hd
      simp [Ne.symm hne]
    simp [trustedDeviceCheck, hfind, hpre]

/-- Witness for the amended C7: issue `"ab"` for `"u1"` on a fresh ledger,
then check it for `"u2"`. -/
theorem issue_isTrusted_round_trip_witness :
    trustedDeviceCheck (fun s => s)
        (issueTrusted (fun s => s) ⟨[], []⟩ "u1" "ab" "ua" 0) "u2" (some "ab")
      = false :=
  (issue_isTrusted_round_trip (fun s => s) ⟨[], []⟩ "u1" "ab" "ua" 0).2.1
    rfl "u2" (by decide) (by decide)

/-! ## C2 — the stored TOTP secret is returned after enrollment -/

/-- C2 failing input: for a user whose stored preferences hold
`totp.secret = "s3cret"`, the settings GET returns the preferences object
verbatim — secret included — and the profile GET includes the full stored
`totp` object (enabled, secret, createdAt) in the response body, violating
the claimed invariant. -/
theorem totp_secret_returned_in_responses :
    (settingsGET demoDb (some "u") (some "u")).preferences
        = some ⟨some ⟨true, "s3cret", 0⟩, []⟩ ∧
    (profileGET (fun s => s) demoDb (some "u") (some "u") none).profile
        = some ⟨some "nm", some "un", none, some ⟨true, "s3cret", 0⟩, false⟩ := by
  exact ⟨by decide, by decide⟩

/-! ## C4 — the login-time 2FA challenge authenticates nobody -/

/-- C4: the login-time challenge handler never consults the session cookie
or the Authorization header: for any such values, a body carrying a
`userId` with an enrolled TOTP secret and a code that verifies produces a
success response that sets the trust cookie to a fresh raw token and
persists the corresponding trusted-device row. -/
theorem verify_login_requires_no_authentication
    (hash : String → String) (check : String → String → Except String Bool)
    (db : DB) (sessionUser authHeader : Option String)
    (userId token ua raw : String) (now : Nat)
    (prof : Profile) (prefs : Preferences) (t : Totp)
    (hfind : db.profiles.find? (fun r => r.id == userId) = some prof)
    (hprefs : prof.preferences = some prefs)
    (htotp : prefs.totp = some t)
    (hsec : t.secret ≠ "")
    (hok : safeCheck check token t.secret = true) :
    verifyLoginPOST hash check db sessionUser authHeader (some userId) (some token)
        ua raw now
      = (⟨200, true, none, some ⟨raw, 60 * 60 * 24 * 365⟩⟩,
          issueTrusted hash db userId raw ua now) := by
  simp [verifyLoginPOST, hfind, hprefs, htotp, hsec, hok, emptyPrefs]

/-- Witness for C4: a request with no session and no Authorization header
still gets the trust cookie. -/
theorem verify_login_requires_no_authentication_witness :
    verifyLoginPOST (fun s => s) (fun c s => .ok (c == "123456" && s == "S"))
        demoDb2 none none (some "u") (some "123456") "ua" "fresh" 9
      = (⟨200, true, none, some ⟨"fresh", 60 * 60 * 24 * 365⟩⟩,
          issueTrusted (fun s => s) demoDb2 "u" "fresh" "ua" 9) :=
  verify_login_requires_no_authentication (fun s => s)
    (fun c s => .ok (c == "123456" && s == "S")) demoDb2 none none
    "u" "123456" "ua" "fresh" 9
    ⟨"u", none, none, none, some ⟨some ⟨true, "S", 0⟩, []⟩⟩ ⟨some ⟨true, "S", 0⟩, []⟩
    ⟨true, "S", 0⟩ (by decide) (by decide) (by decide) (by decide) (by decide)

/-! ## C5 — enrollment completion persists only on success -/

/-- C5: under a passed authentication check, a failed TOTP verification of
the submitted code against the submitted secret returns the
`invalid token` error and leaves the database untouched — no second-factor
configuration persisted, no trusted-device row, no cookie; a successful
verification persists the configuration and issues the trust token. -/
theorem verify_enrollment_only_on_success
    (hash : String → String) (check : String → String → Except String Bool)
    (db : DB) (authUser : Option String)
    (userId secret token ua raw : String) (now : Nat)
    (hauth : authUser = some userId) :
    (safeCheck check token secret = false →
      verify2faPOST hash check db authUser (some userId) (some secret) (some token)
          ua raw now
        = (⟨400, false, some "invalid token", none, none⟩, db)) ∧
    (safeCheck check token secret = true →
      verify2faPOST hash check db authUser (some userId) (some secret) (some token)
          ua raw now
        = (⟨200, true, none, some (true, now), some ⟨raw, 60 * 60 * 24 * 365⟩⟩,
            issueTrusted hash
              (updateProfilePrefs db userId
                { ((db.profiles.find? (fun r => r.id == userId)).bind
                    (fun r => r.preferences)).getD emptyPrefs with
                    totp := some ⟨true, secret, now⟩ })
              userId raw ua now)) := by
  constructor
  · intro hfail
    simp [verify2faPOST, hauth, hfail]
  · intro hok
    simp [verify2faPOST, hauth, hok]

/-- Witness for C5: a wrong code against the submitted secret changes
nothing. -/
theorem verify_enrollment_only_on_success_witness :
    verify2faPOST (fun s => s) (fun c s => .ok (c == "123456" && s == "S"))
        demoDb (some "u") (some "u") (some "S") (some "000000") "ua" "fresh" 9
      = (⟨400, false, some "invalid token", none, none⟩, demoDb) :=
  (verify_enrollment_only_on_success (fun s => s)
      (fun c s => .ok (c == "123456" && s == "S")) demoDb (some "u")
      "u" "S" "000000" "ua" "fresh" 9 rfl).1 (by decide)

/-! ## C6 — disable clears configuration and all standing trust -/

/-- C6: for an authenticated user with an enrolled TOTP entry, a disable
call succeeds, leaves zero trusted-device rows for that user, removes the
`totp` entry from every profile row of that user (so `enabled` is no
longer true), and expires the trust cookie (`maxAge: 0`). -/
theorem disable_clears_config_and_devices (db : DB) (authUser : Option String)
    (userId : String) (prof : Profile)
    (hauth : authUser = some userId)
    (hfind : db.profiles.find? (fun r => r.id == userId) = some prof)
    (henabled : ((prof.preferences.getD emptyPrefs).totp).isSome = true) :
    ((disable2faPOST db authUser (some userId)).1 = ⟨200, true, none, some ⟨"", 0⟩⟩) ∧
    ((disable2faPOST db authUser (some userId)).2.trusted_devices.filter
        (fun d => d.user_id == userId) = []) ∧
    (∀ p ∈ (disable2faPOST db authUser (some userId)).2.profiles,
      p.id = userId → (p.preferences.getD emptyPrefs).totp = none) := by
  have hmain : disable2faPOST db authUser (some userId)
      = (⟨200, true, none, some ⟨"", 0⟩⟩,
          { profiles := (updateProfilePrefs db userId
              { (prof.preferences.getD emptyPrefs) with totp := none }).profiles,
            trusted_devices := ((updateProfilePrefs db userId
              { (prof.preferences.getD emptyPrefs) with totp := none }).trusted_devices.filter
                (fun d => !(d.user_id == userId))) }) := by
    simp [disable2faPOST, hauth, hfind, henabled]
  refine ⟨by rw [hmain], ?_, ?_⟩
  · rw [hmain]
    simp only [List.filter_filter]
    rw [List.filter_eq_nil_iff]
    intro d _
    cases h : (d.user_id == userId) <;> simp [h]
  · rw [hmain]
    intro p hp hpid
    simp only [updateProfilePrefs, List.mem_map] at hp
    rcases hp with ⟨r, _, hr⟩
    by_cases hid : r.id == userId
    · rw [hid] at hr
      simp at hr
      rw [← hr]
      simp [emptyPrefs]
    · simp only [hid] at hr
      simp at hr
      rw [← hr] at hpid
      simp [hpid] at hid

/-- Witness for C6: user `"u"` with two trusted devices (and a foreign
device for `"v"`) ends with zero rows for `"u"` and no `totp` entry. -/
theorem disable_clears_config_and_devices_witness :
    ((disable2faPOST demoDb3 (some "u") (some "u")).1 = ⟨200, true, none, some ⟨"", 0⟩⟩) ∧
    ((disable2faPOST demoDb3 (some "u") (some "u")).2.trusted_devices.filter
        (fun d => d.user_id == "u") = []) ∧
    (∀ p ∈ (disable2faPOST demoDb3 (some "u") (some "u")).2.profiles,
      p.id = "u" → (p.preferences.getD emptyPrefs).totp = none) :=
  disable_clears_config_and_devices demoDb3 (some "u") "u"
    ⟨"u", none, none, none, some ⟨some ⟨true, "S", 0⟩, []⟩⟩ rfl (by decide) (by decide)

/-! ## C8 — TOTP verification never propagates an exception -/

/-- C8: when the underlying `authenticator.check` throws, both verify
routes resolve the verification to `false` and answer with the regular
`invalid token` error response, leaving the database untouched — the
exception is never propagated as a fault. -/
theorem totp_check_exception_resolves_false
    (hash : String → String) (check : String → String → Except String Bool)
    (db : DB) (authUser : Option String)
    (userId secret token ua raw : String) (now : Nat) (msg : String)
    (prof : Profile) (prefs : Preferences) (t : Totp)
    (hexc : check token secret = .error msg)
    (hauth : authUser = some userId)
    (hfind : db.profiles.find? (fun r => r.id == userId) = some prof)
    (hprefs : prof.preferences = some prefs)
    (htotp : prefs.totp = some t)
    (hsec : t.secret = secret) (hne : secret ≠ "") :
    safeCheck check token secret = false ∧
    verify2faPOST hash check db authUser (some userId) (some secret) (some token)
        ua raw now
      = (⟨400, false, some "invalid token", none, none⟩, db) ∧
    verifyLoginPOST hash check db none none (some userId) (some token) ua raw now
      = (⟨400, false, some "invalid token", none⟩, db) := by
  have hfalse : safeCheck check token secret = false := by
    simp [safeCheck, hexc]
  refine ⟨hfalse, ?_, ?_⟩
  · simp [verify2faPOST, hauth, hfalse]
  · simp [verifyLoginPOST, hfind, hprefs, htotp, hsec, hne, hfalse]

/-- Witness for C8: a check that always throws yields the 400 `invalid
token` response from both routes. -/
theorem totp_check_exception_resolves_false_witness :
    safeCheck (fun _ _ => .error "boom") "123456" "S" = false ∧
    verify2faPOST (fun s => s) (fun _ _ => .error "boom") demoDb2 (some "u")
        (some "u") (some "S") (some "123456") "ua" "fresh" 9
      = (⟨400, false, some "invalid token", none, none⟩, demoDb2) ∧
    verifyLoginPOST (fun s => s) (fun _ _ => .error "boom") demoDb2 none none
        (some "u") (some "123456") "ua" "fresh" 9
      = (⟨400, false, some "invalid token", none⟩, demoDb2) :=
  totp_check_exception_resolves_false (fun s => s) (fun _ _ => .error "boom")
    demoDb2 (some "u") "u" "S" "123456" "ua" "fresh" 9 "boom"
    ⟨"u", none, none, none, some ⟨some ⟨true, "S", 0⟩, []⟩⟩ ⟨some ⟨true, "S", 0⟩, []⟩
    ⟨true, "S", 0⟩ rfl rfl (by decide) rfl rfl rfl (by decide)

/-! ## C3 — the 6th and 7th attempts for an email inside one window -/

/-- Run the login-attempt handler over a sequence of call times with a
fixed email and ip; returns the last response and the final state. -/
def throttleSeq (e ip : String) (st : ThrottleState) : List Nat → ThrottleResp × ThrottleState
  | [] => (⟨0, true, none, none, none⟩, st)
  | [t] => loginAttemptPOST st (some e) ip t
  | t :: ts => throttleSeq e ip (loginAttemptPOST st (some e) ip t).2 ts

/-- A throttle call on keys with no existing counters opens both windows
with count 1 and is admitted. -/
theorem throttle_step_fresh (st : ThrottleState) (e ip : String) (t : Nat)
    (hip : st.ipAttempts ip = none) (hem : st.emailAttempts e = none) :
    loginAttemptPOST st (some e) ip t =
      (⟨200, true, none, some (IP_MAX - 1), some (EMAIL_MAX - 1)⟩,
        ⟨mset st.emailAttempts e ⟨1, t⟩, mset st.ipAttempts ip ⟨1, t⟩⟩) := by
  have hipmax : ¬ (IP_MAX < 1) := by simp [IP_MAX]
  have hemmax : ¬ (EMAIL_MAX < 1) := by simp [EMAIL_MAX]
  have hretip : ¬ (IP_WINDOW_MS ≤ t - t) := by simp [IP_WINDOW_MS]
  have hretem : ¬ (EMAIL_WINDOW_MS ≤ t - t) := by simp [EMAIL_WINDOW_MS]
  have hipz : ¬ (IP_WINDOW_MS = 0) := by simp [IP_WINDOW_MS]
  have hemz : ¬ (EMAIL_WINDOW_MS = 0) := by simp [EMAIL_WINDOW_MS]
  simp [loginAttemptPOST, incrMap, getRemaining, hip, hem, hipmax, hemmax,
    hretip, hretem, hipz, hemz]

/-- A throttle call inside both open windows with the email count still
below its maximum: both counters advance and the call is admitted. -/
theorem throttle_step_admitted (st : ThrottleState) (e ip : String) (c t1 t : Nat)
    (hip : st.ipAttempts ip = some ⟨c, t1⟩)
    (hem : st.emailAttempts e = some ⟨c, t1⟩)
    (h1 : t1 ≤ t) (h2 : t < t1 + EMAIL_WINDOW_MS)
    (hcip : c + 1 ≤ IP_MAX) (hcem : c + 1 ≤ EMAIL_MAX) :
    loginAttemptPOST st (some e) ip t =
      (⟨200, true, none, some (IP_MAX - (c + 1)), some (EMAIL_MAX - (c + 1))⟩,
        ⟨mset st.emailAttempts e ⟨c + 1, t1⟩, mset st.ipAttempts ip ⟨c + 1, t1⟩⟩) := by
  have h2' : t < t1 + 900000 := by simpa [EMAIL_WINDOW_MS] using h2
  have hipw : ¬ (t1 + IP_WINDOW_MS ≤ t) := by simp only [IP_WINDOW_MS]; omega
  have hemw : ¬ (t1 + EMAIL_WINDOW_MS ≤ t) := by simp only [EMAIL_WINDOW_MS]; omega
  have hipmax : ¬ (IP_MAX < c + 1) := by omega
  have hemmax : ¬ (EMAIL_MAX < c + 1) := by omega
  have hretip : ¬ (IP_WINDOW_MS ≤ t - t1) := by simp only [IP_WINDOW_MS]; omega
  have hretem : ¬ (EMAIL_WINDOW_MS ≤ t - t1) := by simp only [EMAIL_WINDOW_MS]; omega
  simp [loginAttemptPOST, incrMap, getRemaining, hip, hem, hipw, hemw, hipmax,
    hemmax, hretip, hretem]

/-- A throttle call inside both open windows that pushes the email count
over its maximum (with the ip count still admitted): the call is denied
with status 429 and the ceiling-rounded remaining email window as
`retryAfter`. -/
theorem throttle_step_denied (st : ThrottleState) (e ip : String) (c t1 t : Nat)
    (hip : st.ipAttempts ip = some ⟨c, t1⟩)
    (hem : st.emailAttempts e = some ⟨c, t1⟩)
    (h1 : t1 ≤ t) (h2 : t < t1 + EMAIL_WINDOW_MS)
    (hcip : c + 1 ≤ IP_MAX) (hcem : EMAIL_MAX < c + 1) :
    loginAttemptPOST st (some e) ip t =
      (⟨429, false, some ((EMAIL_WINDOW_MS - (t - t1) + 999) / 1000), none, none⟩,
        ⟨mset st.emailAttempts e ⟨c + 1, t1⟩, mset st.ipAttempts ip ⟨c + 1, t1⟩⟩) := by
  have h2' : t < t1 + 900000 := by simpa [EMAIL_WINDOW_MS] using h2
  have hipw : ¬ (t1 + IP_WINDOW_MS ≤ t) := by simp only [IP_WINDOW_MS]; omega
  have hemw : ¬ (t1 + EMAIL_WINDOW_MS ≤ t) := by simp only [EMAIL_WINDOW_MS]; omega
  have hipmax : ¬ (IP_MAX < c + 1) := by omega
  have hretem : ¬ (EMAIL_WINDOW_MS ≤ t - t1) := by simp only [EMAIL_WINDOW_MS]; omega
  simp [loginAttemptPOST, incrMap, getRemaining, hip, hem, hipw, hemw, hipmax,
    hcem, hretem]

/-- C3: six throttle calls carrying the same email within one 15-minute
window (from a fresh process state, same origin, nondecreasing times): the
6th call is denied with status 429 and a `retryAfter`; a 7th call in the
same window is denied with a `retryAfter` at most the 6th's.  The throttle
endpoint never reads credentials, so this holds regardless of credential
correctness. -/
theorem sixth_and_seventh_login_attempts_denied (e ip : String)
    (t1 t2 t3 t4 t5 t6 t7 : Nat)
    (h12 : t1 ≤ t2) (h23 : t2 ≤ t3) (h34 : t3 ≤ t4) (h45 : t4 ≤ t5)
    (h56 : t5 ≤ t6) (h67 : t6 ≤ t7) (hw : t7 < t1 + EMAIL_WINDOW_MS) :
    (throttleSeq e ip throttleInit [t1, t2, t3, t4, t5, t6]).1
        = ⟨429, false, some ((EMAIL_WINDOW_MS - (t6 - t1) + 999) / 1000), none, none⟩ ∧
    (throttleSeq e ip throttleInit [t1, t2, t3, t4, t5, t6, t7]).1
        = ⟨429, false, some ((EMAIL_WINDOW_MS - (t7 - t1) + 999) / 1000), none, none⟩ ∧
    (EMAIL_WINDOW_MS - (t7 - t1) + 999) / 1000
      ≤ (EMAIL_WINDOW_MS - (t6 - t1) + 999) / 1000 := by
  have e1 := throttle_step_fresh throttleInit e ip t1 rfl rfl
  have e2 := throttle_step_admitted
    ⟨mset throttleInit.emailAttempts e ⟨1, t1⟩, mset throttleInit.ipAttempts ip ⟨1, t1⟩⟩
    e ip 1 t1 t2 (mset_same _ _ _) (mset_same _ _ _) h12 (by omega)
    (by decide) (by decide)
  have e3 := throttle_step_admitted
    ⟨mset (mset throttleInit.emailAttempts e ⟨1, t1⟩) e ⟨2, t1⟩,
      mset (mset throttleInit.ipAttempts ip ⟨1, t1⟩) ip ⟨2, t1⟩⟩
    e ip 2 t1 t3 (mset_same _ _ _) (mset_same _ _ _) (by omega) (by omega)
    (by decide) (by decide)
  have e4 := throttle_step_admitted
    ⟨mset (mset (mset throttleInit.emailAttempts e ⟨1, t1⟩) e ⟨2, t1⟩) e ⟨3, t1⟩,
      mset (mset (mset throttleInit.ipAttempts ip ⟨1, t1⟩) ip ⟨2, t1⟩) ip ⟨3, t1⟩⟩
    e ip 3 t1 t4 (mset_same _ _ _) (mset_same _ _ _) (by omega) (by omega)
    (by decide) (by decide)
  have e5 := throttle_step_admitted
    ⟨mset (mset (mset (mset throttleInit.emailAttempts e ⟨1, t1⟩) e ⟨2, t1⟩)
        e ⟨3, t1⟩) e ⟨4, t1⟩,
      mset (mset (mset (mset throttleInit.ipAttempts ip ⟨1, t1⟩) ip ⟨2, t1⟩)
        ip ⟨3, t1⟩) ip ⟨4, t1⟩⟩
    e ip 4 t1 t5 (mset_same _ _ _) (mset_same _ _ _) (by omega) (by omega)
    (by decide) (by decide)
  have e6 := throttle_step_denied
    ⟨mset (mset (mset (mset (mset throttleInit.emailAttempts e ⟨1, t1⟩) e ⟨2, t1⟩)
        e ⟨3, t1⟩) e ⟨4, t1⟩) e ⟨5, t1⟩,
      mset (mset (mset (mset (mset throttleInit.ipAttempts ip ⟨1, t1⟩) ip ⟨2, t1⟩)
        ip ⟨3, t1⟩) ip ⟨4, t1⟩) ip ⟨5, t1⟩⟩
    e ip 5 t1 t6 (mset_same _ _ _) (mset_same _ _ _) (by omega) (by omega)
    (by decide) (by decide)
  have e7 := throttle_step_denied
    ⟨mset (mset (mset (mset (mset (mset throttleInit.emailAttempts e ⟨1, t1⟩)
        e ⟨2, t1⟩) e ⟨3, t1⟩) e ⟨4, t1⟩) e ⟨5, t1⟩) e ⟨6, t1⟩,
      mset (mset (mset (mset (mset (mset throttleInit.ipAttempts ip ⟨1, t1⟩)
        ip ⟨2, t1⟩) ip ⟨3, t1⟩) ip ⟨4, t1⟩) ip ⟨5, t1⟩) ip ⟨6, t1⟩⟩
    e ip 6 t1 t7 (mset_same _ _ _) (mset_same _ _ _) (by omega) (by omega)
    (by decide) (by decide)
  refine ⟨?_, ?_, ?_⟩
  · simp only [throttleSeq, e1, e2, e3, e4, e5, e6]
  · simp only [throttleSeq, e1, e2, e3, e4, e5, e6, e7]
  · have : EMAIL_WINDOW_MS - (t7 - t1) + 999 ≤ EMAIL_WINDOW_MS - (t6 - t1) + 999 := by
      omega
    exact Nat.div_le_div_right this

/-- Witness for C3: seven calls at ms times 0,0,0,0,0,1000,2000. -/
theorem sixth_and_seventh_login_attempts_denied_witness :
    (throttleSeq "e" "i" throttleInit [0, 0, 0, 0, 0, 1000]).1
        = ⟨429, false, some ((EMAIL_WINDOW_MS - (1000 - 0) + 999) / 1000), none, none⟩ ∧
    (throttleSeq "e" "i" throttleInit [0, 0, 0, 0, 0, 1000, 2000]).1
        = ⟨429, false, some ((EMAIL_WINDOW_MS - (2000 - 0) + 999) / 1000), none, none⟩ ∧
    (EMAIL_WINDOW_MS - (2000 - 0) + 999) / 1000
      ≤ (EMAIL_WINDOW_MS - (1000 - 0) + 999) / 1000 :=
  sixth_and_seventh_login_attempts_denied "e" "i" 0 0 0 0 0 1000 2000
    (by decide) (by decide) (by decide) (by decide) (by decide) (by decide) (by decide)

end NextApp
